import Mathlib

/-
Verification of the ServerlessLambdaContext entity-stack context manager
(aws_xray_sdk/core/serverless_lambda_context.py).

The file shallowly embeds the context manager as pure functions over an
explicit state. The source repository provides only the
ServerlessLambdaContext class; its collaborators (the generic Context base,
LambdaContext, FacadeSegment and the entity classes) are modelled from the
specification, as marked in the doc comments below.
-/

namespace XRay

/-- Modelled from the spec: the context-missing strategy values (sections 4.2
and 7): RUNTIME_ERROR raises a missing-context failure, LOG_ERROR emits a
diagnostic and degrades, IGNORE_ERROR silently degrades. -/
inductive Strategy where
  | runtimeError
  | logError
  | ignoreError
deriving DecidableEq, Repr

/-- Trace entities, tagged by their concrete runtime class. `segment` is the
raw Segment class exactly; `segmentSubclass` stands for any strict subclass of
Segment (a Python `type(e) == Segment` check distinguishes the two).
`subsegmentRoot` is an ordinary Subsegment before a parent has been attached,
`subsegmentOf` an ordinary Subsegment holding its parent back-reference.
`mimic` is a MimicSegment: it wraps exactly one entity and holds the identity
of its parent facade. `facade` is the environment-provided FacadeSegment. -/
inductive Entity where
  | segment (id : Nat)
  | segmentSubclass (id : Nat)
  | subsegmentRoot (id : Nat)
  | subsegmentOf (id : Nat) (parent : Entity)
  | mimic (id : Nat) (parentId : Nat) (wrapped : Entity)
  | facade (id : Nat)
deriving DecidableEq, Repr

/-- Identity of an entity. -/
def entityId : Entity → Nat
  | .segment i => i
  | .segmentSubclass i => i
  | .subsegmentRoot i => i
  | .subsegmentOf i _ => i
  | .mimic i _ _ => i
  | .facade i => i

/-- Python check `type(e) == MimicSegment` (exact class). -/
def isMimicType : Entity → Bool
  | .mimic _ _ _ => true
  | _ => false

/-- Python check `type(e) == Segment` (exact class, excludes subclasses). -/
def isExactSegment : Entity → Bool
  | .segment _ => true
  | _ => false

/-- Modelled from the spec: the generic Subsegment capability test of the base
entity-stack manager (IsSubsegmentType, section 6). Ordinary subsegments
satisfy it, and so does a Mimic projection, which structurally holds a parent
reference like a subsegment does (section 4.1). -/
def baseIsSubsegment : Entity → Bool
  | .subsegmentRoot _ => true
  | .subsegmentOf _ _ => true
  | .mimic _ _ _ => true
  | _ => false

/-- ServerlessLambdaContext._is_subsegment: the generic capability test,
restricted to exclude MimicSegment (source lines 121-122). -/
def ServerlessLambdaContext._is_subsegment (e : Entity) : Bool :=
  baseIsSubsegment e && !(isMimicType e)

/-- Parent back-reference of an entity, as tracked for stack popping; only an
ordinary subsegment with an attached parent yields one. -/
def parentOf : Entity → Option Entity
  | .subsegmentOf _ p => some p
  | _ => none

/-- Modelled from the spec: attaching a parent to a subsegment when it is
pushed (section 4.1 OpenSubsegment: the subsegment becomes a child of the
entity currently occupying the slot). Entities that are not ordinary
subsegments are left unchanged. -/
def withParent : Entity → Entity → Entity
  | .subsegmentRoot i, p => .subsegmentOf i p
  | .subsegmentOf i _, p => .subsegmentOf i p
  | e, _ => e

/-- State of one execution context: the current-entity slot, the facade root
(its identity and its child collection, the `subsegments` list of the
FacadeSegment), the mutable context-missing strategy, a counter supplying
fresh identities for newly constructed MimicSegments, and a log of the
(entity, end time) pairs marked closed by the base close operations. -/
structure CtxState where
  slot : Option Entity
  facadeId : Nat
  facadeChildren : List Entity
  strategy : Strategy
  nextId : Nat
  closedLog : List (Nat × Option Nat)
deriving DecidableEq, Repr

/-- Result of get_trace_entity: an entity, a raised missing-context failure,
or the no-op sentinel (with a flag recording whether a diagnostic was
emitted). -/
inductive GetResult where
  | entity (e : Entity)
  | raised
  | noop (logged : Bool)
deriving DecidableEq, Repr

/-- Modelled from the spec: Context.handle_context_missing dispatches on the
configured strategy (P5): RUNTIME_ERROR raises, LOG_ERROR emits a diagnostic
and returns the no-op sentinel, IGNORE_ERROR returns it silently. -/
def Context.handle_context_missing : Strategy → GetResult
  | .runtimeError => .raised
  | .logError => .noop true
  | .ignoreError => .noop false

/-- Modelled from the spec: LambdaContext.handle_context_missing is a no-op
returning None (source comment, lines 92-93). -/
def LambdaContext.handle_context_missing : Option Entity := none

/-- Modelled from the spec: Context.get_trace_entity (Peek) returns the slot
entity when present; on an empty slot it falls back to the virtual
handle_context_missing, which on this class resolves to the LambdaContext
no-op. -/
def Context.get_trace_entity (st : CtxState) : Option Entity :=
  match st.slot with
  | some e => some e
  | none => LambdaContext.handle_context_missing

/-- Modelled from the spec: RefreshAndGetFacadeRoot (section 6) always
returns the valid facade root of the current execution context; the refresh
never fails. Mirrors ServerlessLambdaContext.__get_facade_entity. -/
def getFacadeEntity (st : CtxState) : Nat := st.facadeId

/-- Modelled from the spec: the base Push installs the entity as current. -/
def Context.put_segment (st : CtxState) (e : Entity) : CtxState :=
  { st with slot := some e }

/-- Modelled from the spec: the base close pops the slot and marks the entity
closed with the given end time; the new slot holds the tracked parent when
the entity is classified as nested by the (overridden) subsegment
classification, and is empty otherwise (section 4.1 state machine). On an
empty slot the base close is a no-op. -/
def Context.end_segment (st : CtxState) (end_time : Option Nat) : CtxState :=
  match st.slot with
  | none => st
  | some e =>
    { st with
      slot := if ServerlessLambdaContext._is_subsegment e then parentOf e else none,
      closedLog := st.closedLog ++ [(entityId e, end_time)] }

/-- Modelled from the spec: the base OpenSubsegment attaches the subsegment to
the entity currently occupying the slot and installs it as current; on an
empty slot the base behavior is a no-op. -/
def Context.put_subsegment (st : CtxState) (sub : Entity) : CtxState :=
  match st.slot with
  | none => st
  | some e => { st with slot := some (withParent sub e) }

/-- Modelled from the spec: the base CloseSubsegment is fail-open: it returns
false on an empty slot, and false when the current entity is not classified
as a subsegment; otherwise it marks the entity closed, pops to its parent and
returns true. -/
def Context.end_subsegment (st : CtxState) (end_time : Option Nat) :
    CtxState × Bool :=
  match st.slot with
  | none => (st, false)
  | some e =>
    if ServerlessLambdaContext._is_subsegment e then
      ({ st with slot := parentOf e,
                 closedLog := st.closedLog ++ [(entityId e, end_time)] }, true)
    else (st, false)

/-- Modelled from the spec: the base set installs the entity as current,
overwriting any existing one. -/
def Context.set_trace_entity (st : CtxState) (e : Entity) : CtxState :=
  { st with slot := some e }

/-- ServerlessLambdaContext.put_segment (source lines 30-39): retrieve the
facade root, construct a MimicSegment wrapping the argument and parented at
the facade, append it to the facade child collection (add_subsegment,
modelled from the spec as an append), and push it as the current entity. The
fresh-identity counter models the allocation of the new MimicSegment. -/
def ServerlessLambdaContext.put_segment (st : CtxState) (s : Entity) : CtxState :=
  let pid := getFacadeEntity st
  let m := Entity.mimic st.nextId pid s
  let st1 := { st with facadeChildren := st.facadeChildren ++ [m],
                       nextId := st.nextId + 1 }
  Context.put_segment st1 m

/-- ServerlessLambdaContext.get_trace_entity (source lines 82-100): take the
base result; when it is the None produced by the LambdaContext no-op handler,
return the result of the generic strategy-dispatching handler instead. -/
def ServerlessLambdaContext.get_trace_entity (st : CtxState) : GetResult :=
  match Context.get_trace_entity st with
  | some e => .entity e
  | none => Context.handle_context_missing st.strategy

/-- ServerlessLambdaContext.end_segment (source lines 41-51): read the current
entity through get_trace_entity (which can raise under the RUNTIME_ERROR
strategy on an empty slot, aborting the operation), delegate to the base
close, then, only when the read entity is exactly a MimicSegment, remove it
from the facade child collection (remove_subsegment, modelled from the spec
as removal of the first occurrence). -/
def ServerlessLambdaContext.end_segment (st : CtxState) (end_time : Option Nat) :
    Except Unit CtxState :=
  match ServerlessLambdaContext.get_trace_entity st with
  | .raised => .error ()
  | res =>
    let st1 := Context.end_segment st end_time
    match res with
    | .entity m =>
      if isMimicType m then
        .ok { st1 with facadeChildren := st1.facadeChildren.erase m }
      else .ok st1
    | _ => .ok st1

/-- ServerlessLambdaContext.put_subsegment (source lines 53-59): pure
pass-through to the base push. -/
def ServerlessLambdaContext.put_subsegment (st : CtxState) (sub : Entity) : CtxState :=
  Context.put_subsegment st sub

/-- ServerlessLambdaContext.end_subsegment (source lines 61-70): pure
pass-through to the base close returning its success flag. -/
def ServerlessLambdaContext.end_subsegment (st : CtxState) (end_time : Option Nat) :
    CtxState × Bool :=
  Context.end_subsegment st end_time

/-- ServerlessLambdaContext.set_trace_entity (source lines 102-119): when the
argument is exactly a raw Segment, convert it to a fresh MimicSegment
parented at the facade root; otherwise keep the argument as is. Install the
result as the current entity and overwrite the facade child collection with
exactly that one element. -/
def ServerlessLambdaContext.set_trace_entity (st : CtxState) (e : Entity) : CtxState :=
  if isExactSegment e then
    let pid := getFacadeEntity st
    let m := Entity.mimic st.nextId pid e
    let st0 := { st with nextId := st.nextId + 1 }
    let st1 := Context.set_trace_entity st0 m
    { st1 with facadeChildren := [m] }
  else
    let st1 := Context.set_trace_entity st e
    { st1 with facadeChildren := [e] }

/-- Public operations of the context manager, used to describe the states
reachable at observation points. -/
inductive Op where
  | openSegment (s : Entity)
  | closeSegment (t : Option Nat)
  | openSubsegment (s : Entity)
  | closeSubsegment (t : Option Nat)
  | setEntity (e : Entity)
  | getEntity
deriving DecidableEq, Repr

/-- Apply one public operation to the state. A raised missing-context failure
inside closeSegment leaves the state unchanged (the raise happens before any
mutation in the source); getEntity does not mutate the state. -/
def applyOp (st : CtxState) : Op → CtxState
  | .openSegment s => ServerlessLambdaContext.put_segment st s
  | .closeSegment t =>
    match ServerlessLambdaContext.end_segment st t with
    | .ok st1 => st1
    | .error _ => st
  | .openSubsegment s => ServerlessLambdaContext.put_subsegment st s
  | .closeSubsegment t => (ServerlessLambdaContext.end_subsegment st t).1
  | .setEntity e => ServerlessLambdaContext.set_trace_entity st e
  | .getEntity => st

/-- Run a sequence of public operations. -/
def runOps (st : CtxState) (ops : List Op) : CtxState :=
  ops.foldl applyOp st

/-- Initial state of an invocation: empty slot, facade root with empty child
collection (spec section 8 scenario), a given strategy, and a fresh-identity
counter past the facade identity. -/
def initState (strat : Strategy) (fid : Nat) : CtxState :=
  { slot := none, facadeId := fid, facadeChildren := [], strategy := strat,
    nextId := fid + 1, closedLog := [] }

/-- The facade child collection holds only Mimic projections. -/
def onlyMimics (st : CtxState) : Bool :=
  st.facadeChildren.all isMimicType

/-- Side condition on an operation under which the facade-children invariant
is preserved: set_trace_entity is only invoked with a raw Segment or a Mimic
projection. -/
def goodOp : Op → Bool
  | .setEntity e => isExactSegment e || isMimicType e
  | _ => true

/-- Every identity already present in the facade child collection is below
the fresh-identity counter, so a newly constructed MimicSegment is distinct
from every existing child. -/
def childIdsFresh (st : CtxState) : Bool :=
  st.facadeChildren.all (fun e => decide (entityId e < st.nextId))

theorem fresh_mimic_not_mem (st : CtxState) (pid : Nat) (s : Entity)
    (h : childIdsFresh st = true) :
    Entity.mimic st.nextId pid s ∉ st.facadeChildren := by
  intro hmem
  have h2 := List.all_eq_true.mp h _ hmem
  simp only [entityId, decide_eq_true_eq] at h2
  exact Nat.lt_irrefl _ h2

theorem all_isMimic_erase {l : List Entity} {a : Entity}
    (h : l.all isMimicType = true) : (l.erase a).all isMimicType = true := by
  rw [List.all_eq_true] at h ⊢
  intro x hx
  exact h x (List.mem_of_mem_erase hx)

theorem onlyMimics_applyOp (st : CtxState) (op : Op)
    (hst : onlyMimics st = true) (hop : goodOp op = true) :
    onlyMimics (applyOp st op) = true := by
  cases op with
  | openSegment s =>
    simp only [applyOp, ServerlessLambdaContext.put_segment, Context.put_segment,
      getFacadeEntity, onlyMimics] at *
    rw [List.all_append]
    simp [hst, isMimicType]
  | closeSegment t =>
    simp only [applyOp, ServerlessLambdaContext.end_segment,
      ServerlessLambdaContext.get_trace_entity, Context.get_trace_entity]
    cases hs : st.slot with
    | none =>
      simp only [LambdaContext.handle_context_missing]
      cases st.strategy <;>
        simp_all [Context.handle_context_missing, Context.end_segment, onlyMimics, hs]
    | some e =>
      by_cases hm : isMimicType e = true
      · simp only [hm, if_true]
        simpa [onlyMimics, Context.end_segment, hs] using
          all_isMimic_erase (a := e) hst
      · simp only [Bool.not_eq_true] at hm
        simp [hm, Context.end_segment, hs, onlyMimics, onlyMimics] at *
        exact hst
  | openSubsegment s =>
    simp only [applyOp, ServerlessLambdaContext.put_subsegment, Context.put_subsegment]
    cases hs : st.slot <;> simpa [onlyMimics] using hst
  | closeSubsegment t =>
    simp only [applyOp, ServerlessLambdaContext.end_subsegment, Context.end_subsegment]
    cases hs : st.slot with
    | none => simpa [onlyMimics] using hst
    | some e =>
      by_cases hsub : ServerlessLambdaContext._is_subsegment e = true <;>
        simp [hsub] <;> simpa [onlyMimics] using hst
  | setEntity e =>
    simp only [goodOp, Bool.or_eq_true] at hop
    cases hop with
    | inl hseg =>
      simp [applyOp, ServerlessLambdaContext.set_trace_entity, hseg,
        Context.set_trace_entity, onlyMimics, isMimicType]
    | inr hmim =>
      by_cases hseg : isExactSegment e = true
      · simp [applyOp, ServerlessLambdaContext.set_trace_entity, hseg,
          Context.set_trace_entity, onlyMimics, isMimicType]
      · simp only [Bool.not_eq_true] at hseg
        simp [applyOp, ServerlessLambdaContext.set_trace_entity, hseg,
          Context.set_trace_entity, onlyMimics, hmim]
  | getEntity => simpa [applyOp] using hst

theorem onlyMimics_runOps (ops : List Op) (st : CtxState)
    (hst : onlyMimics st = true) (hops : ops.all goodOp = true) :
    onlyMimics (runOps st ops) = true := by
  induction ops generalizing st with
  | nil => simpa [runOps] using hst
  | cons op rest ih =>
    rw [List.all_cons, Bool.and_eq_true] at hops
    simp only [runOps, List.foldl_cons]
    exact ih (applyOp st op) (onlyMimics_applyOp st op hst hops.1) hops.2

/-- Claim C1: for every Segment s, after put_segment (OpenSegment) returns,
get_trace_entity returns the Mimic projection wrapping s, and the facade
root child collection contains that projection exactly once. -/
theorem put_segment_projection (st : CtxState) (s : Entity)
    (h : childIdsFresh st = true) :
    ServerlessLambdaContext.get_trace_entity (ServerlessLambdaContext.put_segment st s)
      = GetResult.entity (Entity.mimic st.nextId st.facadeId s)
    ∧ (ServerlessLambdaContext.put_segment st s).facadeChildren.count
        (Entity.mimic st.nextId st.facadeId s) = 1 := by
  refine ⟨rfl, ?_⟩
  have hnm := fresh_mimic_not_mem st st.facadeId s h
  simp [ServerlessLambdaContext.put_segment, Context.put_segment, getFacadeEntity,
    List.count_append, List.count_eq_zero.mpr hnm]

theorem put_segment_projection_witness :
    ServerlessLambdaContext.get_trace_entity
        (ServerlessLambdaContext.put_segment (initState Strategy.ignoreError 0)
          (Entity.segment 5))
      = GetResult.entity (Entity.mimic (initState Strategy.ignoreError 0).nextId
          (initState Strategy.ignoreError 0).facadeId (Entity.segment 5))
    ∧ (ServerlessLambdaContext.put_segment (initState Strategy.ignoreError 0)
          (Entity.segment 5)).facadeChildren.count
        (Entity.mimic (initState Strategy.ignoreError 0).nextId
          (initState Strategy.ignoreError 0).facadeId (Entity.segment 5)) = 1 :=
  put_segment_projection (initState Strategy.ignoreError 0) (Entity.segment 5)
    (by decide)

/-- Claim C2: for every Segment s, starting from a state with an empty
current-entity slot (nothing preceded the open), put_segment followed by
end_segment succeeds, the facade root child collection no longer contains the
Mimic projection of s (it is restored to its prior value), the slot is empty
again, and get_trace_entity dispatches to the configured missing strategy. -/
theorem end_segment_removes_projection (st : CtxState) (s : Entity) (t : Option Nat)
    (hWF : childIdsFresh st = true) (_hEmpty : st.slot = none) :
    ∃ st1,
      ServerlessLambdaContext.end_segment (ServerlessLambdaContext.put_segment st s) t
        = Except.ok st1
      ∧ Entity.mimic st.nextId st.facadeId s ∉ st1.facadeChildren
      ∧ st1.facadeChildren = st.facadeChildren
      ∧ st1.slot = none
      ∧ ServerlessLambdaContext.get_trace_entity st1
          = Context.handle_context_missing st.strategy := by
  have hnm := fresh_mimic_not_mem st st.facadeId s hWF
  have herase :
      (st.facadeChildren ++ [Entity.mimic st.nextId st.facadeId s]).erase
        (Entity.mimic st.nextId st.facadeId s) = st.facadeChildren := by
    rw [List.erase_append_right _ hnm, List.erase_cons_head, List.append_nil]
  refine ⟨_, rfl, ?_, ?_, rfl, rfl⟩
  · simp only [ServerlessLambdaContext.put_segment, Context.put_segment,
      getFacadeEntity, Context.end_segment, ServerlessLambdaContext._is_subsegment,
      baseIsSubsegment, isMimicType, Bool.false_and, if_false, herase]
    exact hnm
  · simp only [ServerlessLambdaContext.put_segment, Context.put_segment,
      getFacadeEntity, Context.end_segment, ServerlessLambdaContext._is_subsegment,
      baseIsSubsegment, isMimicType, Bool.false_and, if_false, herase]

theorem end_segment_removes_projection_witness :
    ∃ st1,
      ServerlessLambdaContext.end_segment
          (ServerlessLambdaContext.put_segment (initState Strategy.logError 2)
            (Entity.segment 7)) none
        = Except.ok st1
      ∧ Entity.mimic (initState Strategy.logError 2).nextId
          (initState Strategy.logError 2).facadeId (Entity.segment 7)
          ∉ st1.facadeChildren
      ∧ st1.facadeChildren = (initState Strategy.logError 2).facadeChildren
      ∧ st1.slot = none
      ∧ ServerlessLambdaContext.get_trace_entity st1
          = Context.handle_context_missing (initState Strategy.logError 2).strategy :=
  end_segment_removes_projection (initState Strategy.logError 2) (Entity.segment 7)
    none (by decide) rfl

/-- Claim C3 counterexample: set_trace_entity is one of the public operations,
and calling it from the initial state with an ordinary Subsegment leaves that
raw subsegment in the facade root child collection, so the collection does
not contain only Mimic projections at every reachable observation point. -/
theorem facade_children_counterexample :
    onlyMimics (runOps (initState Strategy.ignoreError 0)
      [Op.setEntity (Entity.subsegmentRoot 1)]) = false := by decide

/-- Claim C3 (amended): at every observation point reachable through the
public operations in which every set_trace_entity argument is a raw Segment
or a Mimic projection, the facade root child collection contains only Mimic
projections, never raw Segments or ordinary Subsegments. -/
theorem facade_children_only_mimics (strat : Strategy) (fid : Nat) (ops : List Op)
    (h : ops.all goodOp = true) :
    onlyMimics (runOps (initState strat fid) ops) = true :=
  onlyMimics_runOps ops (initState strat fid) rfl h

theorem facade_children_only_mimics_witness :
    onlyMimics (runOps (initState Strategy.runtimeError 3)
      [Op.openSegment (Entity.segment 10),
       Op.openSubsegment (Entity.subsegmentRoot 11),
       Op.closeSubsegment none,
       Op.closeSegment none,
       Op.setEntity (Entity.segment 12),
       Op.getEntity]) = true :=
  facade_children_only_mimics Strategy.runtimeError 3
    [Op.openSegment (Entity.segment 10),
     Op.openSubsegment (Entity.subsegmentRoot 11),
     Op.closeSubsegment none,
     Op.closeSegment none,
     Op.setEntity (Entity.segment 12),
     Op.getEntity] (by decide)

/-- Claim C4: for every entity e and every prior state, set_trace_entity
installs the possibly converted entity as current (converting e to a fresh
Mimic projection exactly when e is a raw Segment) and afterwards the facade
root child collection contains exactly one element, that projection,
regardless of how many children existed before the call. -/
theorem set_trace_entity_overwrite (st : CtxState) (e : Entity) :
    (ServerlessLambdaContext.set_trace_entity st e).facadeChildren
        = [if isExactSegment e then Entity.mimic st.nextId st.facadeId e else e]
    ∧ (ServerlessLambdaContext.set_trace_entity st e).slot
        = some (if isExactSegment e then Entity.mimic st.nextId st.facadeId e else e) := by
  cases h : isExactSegment e <;>
    simp [ServerlessLambdaContext.set_trace_entity, Context.set_trace_entity,
      getFacadeEntity, h]

/-- Claim C5: get_trace_entity on an empty current-entity slot dispatches on
the configured context-missing strategy rather than returning the bare empty
value: IGNORE_ERROR yields the silent no-op sentinel, RUNTIME_ERROR raises
the missing-context failure, LOG_ERROR yields the no-op sentinel with a
diagnostic emitted; in every case the facade root itself is not returned. -/
theorem get_trace_entity_missing_dispatch (st : CtxState) (h : st.slot = none) :
    ServerlessLambdaContext.get_trace_entity st
        = (match st.strategy with
           | Strategy.runtimeError => GetResult.raised
           | Strategy.logError => GetResult.noop true
           | Strategy.ignoreError => GetResult.noop false)
    ∧ ∀ i, ServerlessLambdaContext.get_trace_entity st
        ≠ GetResult.entity (Entity.facade i) := by
  constructor
  · simp only [ServerlessLambdaContext.get_trace_entity, Context.get_trace_entity, h,
      LambdaContext.handle_context_missing]
    cases st.strategy <;> rfl
  · intro i
    simp only [ServerlessLambdaContext.get_trace_entity, Context.get_trace_entity, h,
      LambdaContext.handle_context_missing]
    cases st.strategy <;> simp [Context.handle_context_missing]

theorem get_trace_entity_missing_dispatch_witness :
    (ServerlessLambdaContext.get_trace_entity (initState Strategy.logError 4)
        = (match (initState Strategy.logError 4).strategy with
           | Strategy.runtimeError => GetResult.raised
           | Strategy.logError => GetResult.noop true
           | Strategy.ignoreError => GetResult.noop false))
    ∧ ∀ i, ServerlessLambdaContext.get_trace_entity (initState Strategy.logError 4)
        ≠ GetResult.entity (Entity.facade i) :=
  get_trace_entity_missing_dispatch (initState Strategy.logError 4) rfl

/-- Claim C6 counterexample: with the RUNTIME_ERROR strategy and an empty
current-entity slot, end_segment begins by reading the current entity through
get_trace_entity, which raises the missing-context failure, so the close
operation itself propagates a failure for that state and strategy. -/
theorem end_segment_raises_on_missing :
    ServerlessLambdaContext.end_segment (initState Strategy.runtimeError 0) none
      = Except.error () := rfl

/-- Claim C6 (amended): end_segment propagates no failure in every state
whose current-entity slot is non-empty or whose strategy is not
RUNTIME_ERROR; when the closed entity is not a Mimic projection (including
the no-op sentinel on an empty slot) the facade-child removal step is
skipped, so malformed nesting is tolerated without a raised failure. The one
exception forced by the counterexample is the empty-slot RUNTIME_ERROR case,
where reading the current entity raises the missing-context failure. -/
theorem end_segment_no_failure (st : CtxState) (t : Option Nat)
    (h : st.slot ≠ none ∨ st.strategy ≠ Strategy.runtimeError) :
    ∃ st1, ServerlessLambdaContext.end_segment st t = Except.ok st1
      ∧ (∀ e, st.slot = some e → isMimicType e = false →
          st1.facadeChildren = st.facadeChildren)
      ∧ (st.slot = none → st1.facadeChildren = st.facadeChildren) := by
  cases hs : st.slot with
  | none =>
    have hstrat : st.strategy ≠ Strategy.runtimeError := by
      cases h with
      | inl h1 => exact absurd hs h1
      | inr h1 => exact h1
    refine ⟨Context.end_segment st t, ?_, ?_, ?_⟩
    · cases hstrategy : st.strategy with
      | runtimeError => exact absurd hstrategy hstrat
      | logError =>
        simp [ServerlessLambdaContext.end_segment,
          ServerlessLambdaContext.get_trace_entity, Context.get_trace_entity, hs,
          LambdaContext.handle_context_missing, Context.handle_context_missing,
          hstrategy]
      | ignoreError =>
        simp [ServerlessLambdaContext.end_segment,
          ServerlessLambdaContext.get_trace_entity, Context.get_trace_entity, hs,
          LambdaContext.handle_context_missing, Context.handle_context_missing,
          hstrategy]
    · intro e he _
      exact Option.noConfusion he
    · intro _
      simp [Context.end_segment, hs]
  | some e =>
    by_cases hm : isMimicType e = true
    · refine ⟨{ Context.end_segment st t with
          facadeChildren := (Context.end_segment st t).facadeChildren.erase e },
        ?_, ?_, ?_⟩
      · simp [ServerlessLambdaContext.end_segment,
          ServerlessLambdaContext.get_trace_entity, Context.get_trace_entity, hs, hm]
      · intro x hx hxm
        injection hx with hx2
        subst hx2
        rw [hm] at hxm
        exact absurd hxm (by simp)
      · intro hnone
        exact Option.noConfusion hnone
    · simp only [Bool.not_eq_true] at hm
      refine ⟨Context.end_segment st t, ?_, ?_, ?_⟩
      · simp [ServerlessLambdaContext.end_segment,
          ServerlessLambdaContext.get_trace_entity, Context.get_trace_entity, hs, hm]
      · intro x hx _
        simp [Context.end_segment, hs]
      · intro hnone
        exact Option.noConfusion hnone

theorem end_segment_no_failure_witness :
    ∃ st1, ServerlessLambdaContext.end_segment
        { initState Strategy.runtimeError 0 with
          slot := some (Entity.subsegmentRoot 6) } none = Except.ok st1
      ∧ (∀ e, ({ initState Strategy.runtimeError 0 with
            slot := some (Entity.subsegmentRoot 6) } : CtxState).slot = some e →
          isMimicType e = false →
          st1.facadeChildren = ({ initState Strategy.runtimeError 0 with
            slot := some (Entity.subsegmentRoot 6) } : CtxState).facadeChildren)
      ∧ (({ initState Strategy.runtimeError 0 with
            slot := some (Entity.subsegmentRoot 6) } : CtxState).slot = none →
          st1.facadeChildren = ({ initState Strategy.runtimeError 0 with
            slot := some (Entity.subsegmentRoot 6) } : CtxState).facadeChildren) :=
  end_segment_no_failure
    { initState Strategy.runtimeError 0 with slot := some (Entity.subsegmentRoot 6) }
    none (by decide)

/-- Claim C7: end_subsegment returns a success flag rather than failing: it
returns true when the slot holds an ordinary subsegment with its parent to
close under, and on an empty current-entity slot it returns false; its return
type is a plain state and flag, so nothing is raised. -/
theorem end_subsegment_fail_open (st : CtxState) (t : Option Nat) :
    (st.slot = none → ServerlessLambdaContext.end_subsegment st t = (st, false))
    ∧ (∀ i p, st.slot = some (Entity.subsegmentOf i p) →
        (ServerlessLambdaContext.end_subsegment st t).2 = true) := by
  constructor
  · intro h
    simp [ServerlessLambdaContext.end_subsegment, Context.end_subsegment, h]
  · intro i p h
    simp [ServerlessLambdaContext.end_subsegment, Context.end_subsegment, h,
      ServerlessLambdaContext._is_subsegment, baseIsSubsegment, isMimicType]

theorem end_subsegment_fail_open_witness :
    ServerlessLambdaContext.end_subsegment (initState Strategy.runtimeError 0) none
      = (initState Strategy.runtimeError 0, false)
    ∧ (ServerlessLambdaContext.end_subsegment
        { initState Strategy.runtimeError 0 with
          slot := some (Entity.subsegmentOf 4 (Entity.mimic 1 0 (Entity.segment 2))) }
        none).2 = true :=
  ⟨(end_subsegment_fail_open (initState Strategy.runtimeError 0) none).1 rfl,
   (end_subsegment_fail_open
      { initState Strategy.runtimeError 0 with
        slot := some (Entity.subsegmentOf 4 (Entity.mimic 1 0 (Entity.segment 2))) }
      none).2 4 (Entity.mimic 1 0 (Entity.segment 2)) rfl⟩

/-- Claim C8: _is_subsegment holds exactly when the entity satisfies the
generic Subsegment capability and is not a Mimic projection; in particular
every Mimic projection satisfies the capability structurally, yet is
classified as not a subsegment. -/
theorem is_subsegment_classification :
    (∀ e, ServerlessLambdaContext._is_subsegment e
        = (baseIsSubsegment e && !(isMimicType e)))
    ∧ (∀ i pid w, baseIsSubsegment (Entity.mimic i pid w) = true
        ∧ ServerlessLambdaContext._is_subsegment (Entity.mimic i pid w) = false) :=
  ⟨fun _ => rfl, fun _ _ _ => ⟨rfl, rfl⟩⟩

/-- Claim C9: for every entity whose concrete runtime class is not exactly
the raw Segment class (ordinary subsegments, strict Segment subclasses, Mimic
projections, the facade), set_trace_entity performs no conversion: it
installs the argument itself as current and replaces the facade root child
collection with the one-element collection holding the argument itself. -/
theorem set_trace_entity_no_conversion (st : CtxState) (e : Entity)
    (h : isExactSegment e = false) :
    ServerlessLambdaContext.set_trace_entity st e
      = { st with slot := some e, facadeChildren := [e] } := by
  simp [ServerlessLambdaContext.set_trace_entity, Context.set_trace_entity, h]

theorem set_trace_entity_no_conversion_witness :
    ServerlessLambdaContext.set_trace_entity (initState Strategy.ignoreError 0)
        (Entity.segmentSubclass 9)
      = { initState Strategy.ignoreError 0 with
          slot := some (Entity.segmentSubclass 9),
          facadeChildren := [Entity.segmentSubclass 9] } :=
  set_trace_entity_no_conversion (initState Strategy.ignoreError 0)
    (Entity.segmentSubclass 9) (by decide)

/-- Claim C10: put_subsegment and end_subsegment leave the facade root
untouched in every state and for every argument: the facade identity and its
child collection are unchanged by both operations. -/
theorem subsegment_ops_facade_frame (st : CtxState) (sub : Entity) (t : Option Nat) :
    (ServerlessLambdaContext.put_subsegment st sub).facadeChildren = st.facadeChildren
    ∧ (ServerlessLambdaContext.put_subsegment st sub).facadeId = st.facadeId
    ∧ (ServerlessLambdaContext.end_subsegment st t).1.facadeChildren = st.facadeChildren
    ∧ (ServerlessLambdaContext.end_subsegment st t).1.facadeId = st.facadeId := by
  refine ⟨?_, ?_, ?_, ?_⟩ <;>
    simp only [ServerlessLambdaContext.put_subsegment, Context.put_subsegment,
      ServerlessLambdaContext.end_subsegment, Context.end_subsegment] <;>
    cases st.slot <;>
    first
      | rfl
      | (rename_i e
         by_cases hsub : ServerlessLambdaContext._is_subsegment e = true <;>
           simp [hsub])

end XRay
